import Mathlib

/-!
Verification of the sam3dserver service modules against their specification.

The development shallow-embeds the two service modules and the router of the
repository:

* `services/sam3d_service.py` — conversion orchestrator (`convert_2d_to_3d`,
  `_call_fal_api`, `_extract_glb_url`, `_get_mesh_stats`);
* `services/render_service.py` — render backend chain (`_detect_renderer`,
  `render_angle`) and the camera pose calculator (`_camera_pose`);
* `routers/stage_node.py` — the render endpoint (`render_3d_model`).

External collaborators (the fal.ai client, the HTTP client, trimesh, PIL and
the filesystem) are modelled as oracle fields of an environment record whose
values of type `Except String _` describe whether the corresponding Python
call returns normally or raises, and with what message.  The orchestrator and
the handlers additionally return an event trace recording which collaborator
calls were issued, so that claims about the number of remote submissions or
about the absence of network traffic become statements about the trace.
-/

/-! ## Python values of the fal.ai response payload -/

/-- A Python value as it can occur in the fal.ai response payload handled by
`_extract_glb_url`: a string, a dict with string keys, a list, `None`, or some
other object of which only the truthiness matters. -/
inductive PyVal where
  | vStr : String → PyVal
  | vDict : List (String × PyVal) → PyVal
  | vList : List PyVal → PyVal
  | vNone : PyVal
  | vOther : Bool → PyVal

/-- `d.get(k)` on a Python dict with string keys: `some` of the first value
bound to `k`, or `none` when the key is absent. -/
def dictGet (d : List (String × PyVal)) (k : String) : Option PyVal :=
  (d.find? (fun p => p.1 == k)).map (fun p => p.2)

/-- Python truthiness of a `PyVal`: empty strings, empty dicts, empty lists
and `None` are falsy. -/
def PyVal.truthy : PyVal → Bool
  | .vStr s => !s.isEmpty
  | .vDict d => !d.isEmpty
  | .vList l => !l.isEmpty
  | .vNone => false
  | .vOther b => b

/-- `len(v)` for the sized shapes; the remaining shapes raise `TypeError` in
CPython and are excluded by the shape hypotheses of the theorems below. -/
def pyLen : PyVal → Nat
  | .vList l => l.length
  | .vStr s => s.length
  | .vDict d => d.length
  | _ => 0

/-- `v[0]` for a non-empty list or string; the remaining shapes raise in
CPython and are excluded by the shape hypotheses of the theorems below. -/
def pyIndex0 : PyVal → PyVal
  | .vList (a :: _) => a
  | .vStr s => .vStr (String.singleton s.front)
  | _ => .vNone

/-- The body shared by the two lookup blocks of `_extract_glb_url`
(sam3d_service.py lines 158-161 and 166-169): a dict yields its `url` entry
when present, a string yields itself, anything else falls through. -/
def extractFromRef : PyVal → Option PyVal
  | .vDict d => dictGet d "url"
  | .vStr s => some (.vStr s)
  | _ => none

/-- The response payload of a fal.ai job: a Python dict with string keys. -/
abbrev Payload := List (String × PyVal)

/-- `_extract_glb_url` (sam3d_service.py lines 152-171): prefer the first
entry of a truthy non-empty `individual_glbs`, then a truthy `model_glb`;
each reference may be a direct string or a dict carrying a `url` field; the
final fallback returns `None` (modelled as `PyVal.vNone`). -/
def extract_glb_url (result : Payload) : PyVal :=
  let fromIndividual : Option PyVal :=
    match dictGet result "individual_glbs" with
    | some v => if v.truthy ∧ 0 < pyLen v then extractFromRef (pyIndex0 v) else none
    | none => none
  match fromIndividual with
  | some u => u
  | none =>
    match dictGet result "model_glb" with
    | some v => if v.truthy then (extractFromRef v).getD .vNone else .vNone
    | none => .vNone

/-- What the `individual_glbs` block of `_extract_glb_url` yields on its own:
`some u` exactly when that block returns (`u` may be `vNone` when the first
entry is a dict whose `url` field is `None`). -/
def individualYield (result : Payload) : Option PyVal :=
  match dictGet result "individual_glbs" with
  | some v => if v.truthy ∧ 0 < pyLen v then extractFromRef (pyIndex0 v) else none
  | none => none

/-- What the `model_glb` block of `_extract_glb_url` yields on its own. -/
def modelYield (result : Payload) : Option PyVal :=
  match dictGet result "model_glb" with
  | some v => if v.truthy then extractFromRef v else none
  | none => none

/-! ## Mesh statistics (`_get_mesh_stats`) -/

/-- A geometry object of a loaded mesh container, keeping only what
`_get_mesh_stats` inspects: whether the `vertices` and `faces` attributes
exist and, when they do, the lengths they report. -/
structure Geometry where
  hasVertices : Bool
  vertexCount : Nat
  hasFaces : Bool
  faceCount : Nat

/-- Outcome of `trimesh.load`: a scene container with sub-geometries, a
single mesh object, or an exception with a message. -/
inductive LoadResult where
  | scene : List Geometry → LoadResult
  | mesh : Geometry → LoadResult
  | loadError : String → LoadResult

/-- `_get_mesh_stats` (sam3d_service.py lines 173-193): sum vertex and face
counts across the geometries of a scene, read them off a single mesh, and
turn any exception into `(0, 0)`. -/
def get_mesh_stats (load : LoadResult) : Nat × Nat :=
  match load with
  | .loadError _ => (0, 0)
  | .scene geoms =>
    (geoms.foldl (fun acc g => acc + (if g.hasVertices then g.vertexCount else 0)) 0,
     geoms.foldl (fun acc g => acc + (if g.hasFaces then g.faceCount else 0)) 0)
  | .mesh g =>
    if g.hasVertices then (g.vertexCount, if g.hasFaces then g.faceCount else 0)
    else (0, 0)

/-! ## Conversion orchestrator (`convert_2d_to_3d`, `_call_fal_api`) -/

/-- `pat` occurs as a substring of `s` (Python `pat in s`). -/
def strContains (s pat : String) : Bool :=
  decide (List.IsInfix pat.data s.data)

/-- `error_msg.lower()`: characterwise lowercasing (the messages involved
are ASCII, where this matches Python). -/
def strLower (s : String) : String :=
  ⟨s.data.map Char.toLower⟩

/-- The error-message test of `_call_fal_api` (sam3d_service.py line 147):
the message contains `no masks` case-insensitively, or contains
`Auto-segmentation` case-sensitively. -/
def isSegmentationError (msg : String) : Bool :=
  strContains (strLower msg) "no masks" || strContains msg "Auto-segmentation"

/-- The argument dict built by `_call_fal_api` (sam3d_service.py lines
128-135) for one fal.ai job submission; `prompt = none` means the `prompt`
key is absent, which happens when the passed prompt is `None` or empty
(Python falsiness). -/
structure ConvArgs where
  image_url : String
  seed : Int
  export_textured_glb : Bool
  detection_threshold : Rat
  prompt : Option String
deriving DecidableEq

/-- Build the argument dict of `_call_fal_api`: the `prompt` key is included
only when the prompt argument is truthy. -/
def mkConvArgs (image_url : String) (prompt : Option String) (seed : Int)
    (detection_threshold : Rat) : ConvArgs :=
  { image_url := image_url
    seed := seed
    export_textured_glb := true
    detection_threshold := detection_threshold
    prompt := match prompt with
      | some s => if s = "" then none else some s
      | none => none }

/-- `_call_fal_api` (sam3d_service.py lines 125-150): submit one job via the
given `subscribe` oracle; on an exception whose message is recognized as a
segmentation failure return `none`, otherwise re-raise (propagate the
`Except.error`). -/
def call_fal_api (subscribe : ConvArgs → Except String Payload)
    (image_url : String) (prompt : Option String) (seed : Int)
    (detection_threshold : Rat) : Except String (Option Payload) :=
  match subscribe (mkConvArgs image_url prompt seed detection_threshold) with
  | .ok r => .ok (some r)
  | .error e => if isSegmentationError e then .ok none else .error e

/-- A network or filesystem side effect issued by the orchestrator, in
order: the image upload, one job submission with its argument dict, or the
mesh download from an extracted URL value. -/
inductive NetEvent where
  | upload : String → NetEvent
  | submit : ConvArgs → NetEvent
  | download : PyVal → NetEvent

/-- The argument dicts of the job submissions contained in a trace. -/
def submissionsOf (evts : List NetEvent) : List ConvArgs :=
  evts.filterMap (fun e => match e with
    | .submit a => some a
    | _ => none)

/-- The collaborators of `convert_2d_to_3d`: the configured credential, the
availability of the `fal_client` package, and oracles for the image upload,
the n-th job submission, the mesh download (including the local file write)
and the trimesh load used by `_get_mesh_stats`. -/
structure ConvEnv where
  falKey : String
  falClientOk : Bool
  upload : String → Except String String
  subscribe : Nat → ConvArgs → Except String Payload
  download : PyVal → Except String Unit
  load : String → LoadResult

/-- The structured result dict of `convert_2d_to_3d`: either
`{"success": True, "vertices_count": v, "faces_count": f, "model_path": p}`
or `{"success": False, "error": e}`. -/
inductive ConvResult where
  | success : Nat → Nat → String → ConvResult
  | failure : String → ConvResult
deriving DecidableEq

/-- Steps 3-5 of `convert_2d_to_3d` (sam3d_service.py lines 89-115), run
after a job submission returned the payload `r`: extract the GLB URL, fail
when it is falsy, download the mesh, and read the statistics. -/
def afterSubmit (env : ConvEnv) (output_path : String) (r : Payload)
    (evts : List NetEvent) : ConvResult × List NetEvent :=
  let glb_url := extract_glb_url r
  if glb_url.truthy = false then
    (.failure "No GLB model in SAM 3D response. Check image quality or prompt.", evts)
  else
    match env.download glb_url with
    | .error e => (.failure e, evts ++ [NetEvent.download glb_url])
    | .ok _ =>
      let stats := get_mesh_stats (env.load output_path)
      (.success stats.1 stats.2 output_path, evts ++ [NetEvent.download glb_url])

/-- `convert_2d_to_3d` (sam3d_service.py lines 35-123): check the credential and
the client package, upload the image, submit a job with threshold
`0.15` and the given prompt, retry once with threshold `0.05` and no prompt
when the first submission was recognized as a segmentation failure, then
extract, download and read statistics.  Any collaborator exception is caught
and turned into a failure dict.  The second component is the trace of
network events issued. -/
def convert_2d_to_3d (env : ConvEnv) (image_path output_path : String)
    (prompt : String) (seed : Int) : ConvResult × List NetEvent :=
  if env.falKey = "" then
    (.failure "FAL_KEY not configured. Get your key at https://fal.ai/dashboard/keys", [])
  else if env.falClientOk = false then
    (.failure "fal-client package not installed", [])
  else
    match env.upload image_path with
    | .error e => (.failure e, [NetEvent.upload image_path])
    | .ok image_url =>
      let a1 := mkConvArgs image_url (some prompt) seed (15 / 100)
      match call_fal_api (env.subscribe 0) image_url (some prompt) seed (15 / 100) with
      | .error e => (.failure e, [NetEvent.upload image_path, NetEvent.submit a1])
      | .ok (some r) =>
        afterSubmit env output_path r [NetEvent.upload image_path, NetEvent.submit a1]
      | .ok none =>
        let a2 := mkConvArgs image_url none seed (5 / 100)
        match call_fal_api (env.subscribe 1) image_url none seed (5 / 100) with
        | .error e =>
          (.failure e,
           [NetEvent.upload image_path, NetEvent.submit a1, NetEvent.submit a2])
        | .ok none =>
          (.failure "SAM 3D could not detect objects in this image. Try a different image with a clearer subject.",
           [NetEvent.upload image_path, NetEvent.submit a1, NetEvent.submit a2])
        | .ok (some r) =>
          afterSubmit env output_path r
            [NetEvent.upload image_path, NetEvent.submit a1, NetEvent.submit a2]

/-! ## Render backend chain (`_detect_renderer`, `render_angle`) -/

/-- `_detect_renderer` (render_service.py lines 22-36): probe `pyrender`
first, `matplotlib` second, and fall back to `mock`; availability of the two
optional imports is passed in as the probe outcome. -/
def detect_renderer (pyrenderAvailable matplotlibAvailable : Bool) : String :=
  if pyrenderAvailable then "pyrender"
  else if matplotlibAvailable then "matplotlib"
  else "mock"

/-- One invocation of `_mock_render`, recording the arguments it received. -/
structure MockCall where
  resolution : Nat × Nat
  pitch : Rat
  yaw : Rat
deriving DecidableEq

/-- The collaborators of `render_angle`, parameterized by the type of the
in-memory image: the parent-directory creation, the three backend render
methods, and `image.save`.  An `Except.error` value models the corresponding
Python call raising with that message. -/
structure RenderEnv (Img : Type) where
  mkdirParent : Except String Unit
  pyrenderBackend : String → Rat → Rat → Rat → Nat × Nat → Except String Img
  matplotlibBackend : String → Rat → Rat → Rat → Nat × Nat → Except String Img
  mockBackend : Nat × Nat → Rat → Rat → Except String Img
  saveImage : Img → String → Except String Unit

/-- The result dict of `render_angle`: `{"success": True, "output_path": p}`
or `{"success": False, "error": e}`. -/
inductive RenderOutcome where
  | success : String → RenderOutcome
  | failure : String → RenderOutcome
deriving DecidableEq

/-- The dispatch on `self.renderer` inside the `try` block of `render_angle`
(render_service.py lines 70-75), together with the log of `_mock_render`
invocations it performs. -/
def renderPrimary {Img : Type} (env : RenderEnv Img) (renderer model_path : String)
    (pitch yaw distance : Rat) (resolution : Nat × Nat) :
    Except String Img × List MockCall :=
  if renderer = "pyrender" then
    (env.pyrenderBackend model_path pitch yaw distance resolution, [])
  else if renderer = "matplotlib" then
    (env.matplotlibBackend model_path pitch yaw distance resolution, [])
  else
    (env.mockBackend resolution pitch yaw, [⟨resolution, pitch, yaw⟩])

/-- `render_angle` (render_service.py lines 44-90): create the parent
directory, render with the backend selected by `renderer`, save the image to
`output_path`; on any exception fall back once to `_mock_render` with the
same resolution, pitch and yaw, and report failure — carrying the original
error message — only when the fallback itself raises.  The second component
logs every `_mock_render` invocation with its arguments. -/
def render_angle {Img : Type} (env : RenderEnv Img) (renderer model_path output_path : String)
    (pitch yaw distance : Rat) (resolution : Nat × Nat) :
    RenderOutcome × List MockCall :=
  let attempt : Except String Unit × List MockCall :=
    match env.mkdirParent with
    | .error e => (.error e, [])
    | .ok _ =>
      match renderPrimary env renderer model_path pitch yaw distance resolution with
      | (.error e, log) => (.error e, log)
      | (.ok image, log) =>
        match env.saveImage image output_path with
        | .error e => (.error e, log)
        | .ok _ => (.ok (), log)
  match attempt with
  | (.ok _, log) => (.success output_path, log)
  | (.error e, log) =>
    match env.mockBackend resolution pitch yaw with
    | .ok image =>
      match env.saveImage image output_path with
      | .ok _ => (.success output_path, log ++ [⟨resolution, pitch, yaw⟩])
      | .error _ => (.failure e, log ++ [⟨resolution, pitch, yaw⟩])
    | .error _ => (.failure e, log ++ [⟨resolution, pitch, yaw⟩])

/-- The `RenderService` object: its only state is the renderer string chosen
at construction (render_service.py lines 39-42). -/
structure RenderServiceM where
  renderer : String
deriving DecidableEq

/-- `RenderService.__init__`: record the probe outcome once. -/
def RenderServiceM.init (pyrenderAvailable matplotlibAvailable : Bool) : RenderServiceM :=
  ⟨detect_renderer pyrenderAvailable matplotlibAvailable⟩

/-- One `render_angle` request issued against a constructed service.  The
two `availableNow` fields describe which optional backend packages the
process could load at call time; the dispatch of `render_angle` reads only
`self.renderer` and never consults them. -/
structure RenderCallArgs (Img : Type) where
  env : RenderEnv Img
  model_path : String
  output_path : String
  pitch : Rat
  yaw : Rat
  distance : Rat
  resolution : Nat × Nat
  pyrenderAvailableNow : Bool
  matplotlibAvailableNow : Bool

/-- Issue one request against the service: `render_angle` dispatches on the
stored `self.renderer` and assigns no attribute, so the service state is
returned unchanged. -/
def renderStep {Img : Type} (s : RenderServiceM) (c : RenderCallArgs Img) :
    RenderServiceM × (RenderOutcome × List MockCall) :=
  (s, render_angle c.env s.renderer c.model_path c.output_path c.pitch c.yaw
      c.distance c.resolution)

/-- Thread a whole sequence of requests through the service state. -/
def renderMany {Img : Type} (s : RenderServiceM) :
    List (RenderCallArgs Img) → RenderServiceM × List (RenderOutcome × List MockCall)
  | [] => (s, [])
  | c :: cs =>
    let step := renderStep s c
    let rest := renderMany step.1 cs
    (rest.1, step.2 :: rest.2)

/-! ## Stage node router (`render_3d_model`) -/

/-- An `HTTPException` raised by the router: status code and detail text. -/
structure HTTPErrorM where
  status : Nat
  detail : String
deriving DecidableEq

/-- The body of a successful `RenderResponse`. -/
structure RenderResponseM where
  success : Bool
  image_base64 : String
  render_time_ms : Nat
  message : Option String
deriving DecidableEq

/-- The collaborators of the `/render` handler: the filesystem existence
check, the timestamp formatter, the measured wall time, the render service
call, and reading the rendered file back as a base64 string. -/
structure StageEnv where
  pathExists : String → Bool
  timestamp : String
  elapsedMs : Nat
  renderAngle : String → String → Rat → Rat → Rat → Nat × Nat → RenderOutcome
  readFileB64 : String → Except String String

/-- A side effect issued by the `/render` handler: one invocation of
`render_service.render_angle` with the model path and the output path under
the renders directory. -/
inductive StageEvent where
  | renderInvoked : String → String → StageEvent

/-- Python `int()` on a rational number: truncation toward zero. -/
def pyInt (q : Rat) : Int :=
  if q < 0 then q.ceil else q.floor

/-- `render_3d_model` (stage_node.py lines 137-204): build the model path
from the model id, answer 404 without any render attempt when the file does
not exist, otherwise derive the render filename from the truncated angles
and the timestamp, invoke the render service, turn a failure result into a
500, and otherwise read the written file back as a base64 response.  The
second component is the trace of render-service invocations. -/
def render_3d_model (env : StageEnv) (model_id : String) (pitch yaw distance : Rat)
    (width height : Nat) : Except HTTPErrorM RenderResponseM × List StageEvent :=
  let model_path := "storage/models/" ++ model_id ++ ".glb"
  if env.pathExists model_path = false then
    (.error ⟨404, "Model not found: " ++ model_id⟩, [])
  else
    let render_filename := model_id ++ "_p" ++ toString (pyInt pitch) ++ "_y" ++
      toString (pyInt yaw) ++ "_" ++ env.timestamp ++ ".png"
    let render_path := "storage/renders/" ++ render_filename
    match env.renderAngle model_path render_path pitch yaw distance (width, height) with
    | .failure e =>
      (.error ⟨500, "Rendering failed: " ++ e⟩, [StageEvent.renderInvoked model_path render_path])
    | .success _ =>
      match env.readFileB64 render_path with
      | .error e =>
        (.error ⟨500, "Rendering failed: " ++ e⟩, [StageEvent.renderInvoked model_path render_path])
      | .ok b64 =>
        (.ok ⟨true, "data:image/png;base64," ++ b64, env.elapsedMs, some "Rendering successful"⟩,
         [StageEvent.renderInvoked model_path render_path])

/-! ## Camera pose calculator (`_camera_pose`) -/

/-- A 3-vector of reals, standing for the numpy 3-arrays of `_camera_pose`.
The float arithmetic of the source is idealized over the reals. -/
structure Vec3 where
  x : ℝ
  y : ℝ
  z : ℝ

/-- Componentwise difference. -/
noncomputable def Vec3.sub (a b : Vec3) : Vec3 :=
  ⟨a.x - b.x, a.y - b.y, a.z - b.z⟩

/-- Componentwise negation. -/
noncomputable def Vec3.neg (v : Vec3) : Vec3 :=
  ⟨-v.x, -v.y, -v.z⟩

/-- Division of every component by a scalar (numpy `v / s`). -/
noncomputable def Vec3.divS (v : Vec3) (s : ℝ) : Vec3 :=
  ⟨v.x / s, v.y / s, v.z / s⟩

/-- Dot product. -/
noncomputable def Vec3.dot (a b : Vec3) : ℝ :=
  a.x * b.x + a.y * b.y + a.z * b.z

/-- Cross product (`np.cross`). -/
noncomputable def Vec3.cross (a b : Vec3) : Vec3 :=
  ⟨a.y * b.z - a.z * b.y, a.z * b.x - a.x * b.z, a.x * b.y - a.y * b.x⟩

/-- Squared Euclidean norm. -/
noncomputable def Vec3.normSq (v : Vec3) : ℝ :=
  v.x ^ 2 + v.y ^ 2 + v.z ^ 2

/-- Euclidean norm (`np.linalg.norm`). -/
noncomputable def Vec3.norm (v : Vec3) : ℝ :=
  Real.sqrt v.normSq

/-- `math.radians`: degrees to radians. -/
noncomputable def radians (deg : ℝ) : ℝ :=
  deg * Real.pi / 180

/-- The `1e-8` guard added to the denominator when normalizing `right`
(render_service.py line 254). -/
noncomputable def camEps : ℝ :=
  1 / 100000000

/-- The eye position of `_camera_pose` (render_service.py lines 242-246):
spherical to Cartesian on the sphere of radius `distance`. -/
noncomputable def cameraEye (pitch_deg yaw_deg distance : ℝ) : Vec3 :=
  let pitch := radians pitch_deg
  let yaw := radians yaw_deg
  ⟨distance * Real.cos pitch * Real.sin yaw,
   distance * Real.sin pitch,
   distance * Real.cos pitch * Real.cos yaw⟩

/-- The normalized forward vector of the look-at basis (render_service.py
lines 251-252): `target - eye` scaled by the reciprocal of its norm, with
the target at the origin. -/
noncomputable def cameraForward (eye : Vec3) : Vec3 :=
  let f := Vec3.sub ⟨0, 0, 0⟩ eye
  f.divS f.norm

/-- The `right` vector (render_service.py lines 253-254): the cross product
of `forward` with the world up `(0,1,0)`, divided by its norm plus the
`1e-8` guard. -/
noncomputable def cameraRight (forward : Vec3) : Vec3 :=
  let c := forward.cross ⟨0, 1, 0⟩
  c.divS (c.norm + camEps)

/-- The camera up vector (render_service.py line 255). -/
noncomputable def cameraUp (right forward : Vec3) : Vec3 :=
  right.cross forward

/-- `_camera_pose` (render_service.py lines 236-263): start from the 4×4
identity and overwrite the first three rows with the columns `right`,
`cam_up`, `-forward` and `eye`; the bottom row of the identity remains
`(0,0,0,1)`. -/
noncomputable def camera_pose (pitch_deg yaw_deg distance : ℝ) :
    Matrix (Fin 4) (Fin 4) ℝ :=
  let eye := cameraEye pitch_deg yaw_deg distance
  let forward := cameraForward eye
  let right := cameraRight forward
  let cam_up := cameraUp right forward
  Matrix.of
    ![![right.x, cam_up.x, -forward.x, eye.x],
      ![right.y, cam_up.y, -forward.y, eye.y],
      ![right.z, cam_up.z, -forward.z, eye.z],
      ![0, 0, 0, 1]]

/-- The first three entries of column `j` of a 4×4 pose matrix, as a
`Vec3`: the rotation block consists of the first three columns, the
translation of the fourth. -/
noncomputable def poseCol (M : Matrix (Fin 4) (Fin 4) ℝ) (j : Fin 4) : Vec3 :=
  ⟨M 0 j, M 1 j, M 2 j⟩

/-- The orthonormality property claimed for the rotation block of
`_camera_pose`, with an explicit tolerance `t` making the informal phrase
`within floating-point tolerance` precise: each of the three rotation
columns has norm within `t` of `1` and the pairwise dot products are within
`t` of `0`. -/
def poseOrthonormalWithin (t p y d : ℝ) : Prop :=
  |(poseCol (camera_pose p y d) 0).norm - 1| ≤ t ∧
  |(poseCol (camera_pose p y d) 1).norm - 1| ≤ t ∧
  |(poseCol (camera_pose p y d) 2).norm - 1| ≤ t ∧
  |(poseCol (camera_pose p y d) 0).dot (poseCol (camera_pose p y d) 1)| ≤ t ∧
  |(poseCol (camera_pose p y d) 0).dot (poseCol (camera_pose p y d) 2)| ≤ t ∧
  |(poseCol (camera_pose p y d) 1).dot (poseCol (camera_pose p y d) 2)| ≤ t

/-- What actually holds of the rotation block of `_camera_pose`: the three
columns are exactly mutually orthogonal, the third column (`-forward`) has
exactly unit norm, and the first two columns (`right` and `cam_up`) both
have norm `cos(pitch) / (cos(pitch) + 1e-8)` — within `1e-8 / cos(pitch)`
of `1`, hence near-unit only while `cos(pitch)` is not small. -/
def rotationBlockFacts (p y d : ℝ) : Prop :=
  (poseCol (camera_pose p y d) 0).dot (poseCol (camera_pose p y d) 1) = 0 ∧
  (poseCol (camera_pose p y d) 0).dot (poseCol (camera_pose p y d) 2) = 0 ∧
  (poseCol (camera_pose p y d) 1).dot (poseCol (camera_pose p y d) 2) = 0 ∧
  (poseCol (camera_pose p y d) 2).norm = 1 ∧
  (poseCol (camera_pose p y d) 0).norm
    = Real.cos (radians p) / (Real.cos (radians p) + camEps) ∧
  (poseCol (camera_pose p y d) 1).norm
    = Real.cos (radians p) / (Real.cos (radians p) + camEps) ∧
  |(poseCol (camera_pose p y d) 0).norm - 1| ≤ camEps / Real.cos (radians p) ∧
  |(poseCol (camera_pose p y d) 1).norm - 1| ≤ camEps / Real.cos (radians p)

/-! ## Concrete environments used by the witnesses -/

/-- A fal.ai payload carrying only a combined-scene mesh URL. -/
def payloadModelOnly : Payload :=
  [("model_glb", .vStr "https://fal.example/mesh.glb")]

/-- A fal.ai payload carrying both a per-object list and a combined URL. -/
def payloadBoth : Payload :=
  [("individual_glbs", .vList [.vDict [("url", .vStr "https://fal.example/obj0.glb")]]),
   ("model_glb", .vStr "https://fal.example/scene.glb")]

/-- An orchestrator environment whose first job submission raises a
recognized segmentation error and whose second submission succeeds. -/
def envSegRetry : ConvEnv :=
  { falKey := "fal-key"
    falClientOk := true
    upload := fun _ => .ok "https://fal.example/upload.png"
    subscribe := fun n _ =>
      if n = 0 then .error "Auto-segmentation produced no masks for this image"
      else .ok payloadModelOnly
    download := fun _ => .ok ()
    load := fun _ => .scene [] }

/-- An orchestrator environment whose first job submission raises an error
not recognized as a segmentation failure. -/
def envOtherErr : ConvEnv :=
  { falKey := "fal-key"
    falClientOk := true
    upload := fun _ => .ok "https://fal.example/upload.png"
    subscribe := fun _ _ => .error "502 Bad Gateway"
    download := fun _ => .ok ()
    load := fun _ => .scene [] }

/-- An orchestrator environment with no credential configured. -/
def envNoKey : ConvEnv :=
  { falKey := ""
    falClientOk := true
    upload := fun _ => .ok "https://fal.example/upload.png"
    subscribe := fun _ _ => .ok payloadModelOnly
    download := fun _ => .ok ()
    load := fun _ => .scene [] }

/-- An orchestrator environment where the fal-client package is missing. -/
def envNoClient : ConvEnv :=
  { envNoKey with falKey := "fal-key", falClientOk := false }

/-- An orchestrator environment whose image upload raises. -/
def envUploadErr : ConvEnv :=
  { envSegRetry with upload := fun _ => .error "connection reset by peer" }

/-- An orchestrator environment where everything succeeds but the mesh
download raises. -/
def envDownloadErr : ConvEnv :=
  { envSegRetry with
      subscribe := fun _ _ => .ok payloadModelOnly
      download := fun _ => .error "HTTP 500 from storage" }

/-- An orchestrator environment where everything succeeds but reading the
mesh statistics raises inside trimesh. -/
def envStatsFail : ConvEnv :=
  { envSegRetry with
      subscribe := fun _ _ => .ok payloadModelOnly
      load := fun _ => .loadError "not a glb file" }

/-- A render environment whose primary backend raises and whose mock
fallback succeeds; images are modelled as natural numbers. -/
def renvFallbackOk : RenderEnv Nat :=
  { mkdirParent := .ok ()
    pyrenderBackend := fun _ _ _ _ _ => .error "OpenGL context unavailable"
    matplotlibBackend := fun _ _ _ _ _ => .ok 1
    mockBackend := fun _ _ _ => .ok 2
    saveImage := fun _ _ => .ok () }

/-- A render environment where both the primary backend and the mock
fallback raise. -/
def renvAllFail : RenderEnv Nat :=
  { renvFallbackOk with
      mockBackend := fun _ _ _ => .error "ImageDraw failure" }

/-- A stage-node environment whose filesystem contains no model files. -/
def stEnvMissing : StageEnv :=
  { pathExists := fun _ => false
    timestamp := "20260101_000000_000000"
    elapsedMs := 3
    renderAngle := fun _ p _ _ _ _ => .success p
    readFileB64 := fun _ => .ok "QUJD" }

/-- A fal.ai payload whose per-object list carries a dict with a null `url`
value, next to a perfectly usable combined-scene URL. -/
def payloadNullUrl : Payload :=
  [("individual_glbs", .vList [.vDict [("url", .vNone)]]),
   ("model_glb", .vStr "https://fal.example/scene.glb")]

/-- A lookup block yields a usable reference when it yields a truthy value
(a non-empty URL string, or the truthy value of a `url` field). -/
def usableYield (o : Option PyVal) : Prop :=
  ∃ u, o = some u ∧ u.truthy = true

/-! ## Theorems -/

/-- C5 counterexample: on the payload whose per-object list starts with a
dict carrying a null `url` value, extraction returns no URL even though the
combined-scene field yields a perfectly usable reference — refuting the
final clause of the claim, which allows a no-URL result only when neither
field yields a usable reference. -/
theorem extract_glb_url_counterexample :
    ¬ (∀ result : Payload, extract_glb_url result = PyVal.vNone →
        ¬ usableYield (individualYield result) ∧ ¬ usableYield (modelYield result)) := by
  intro hclaim
  rcases hclaim payloadNullUrl rfl with ⟨_, hm⟩
  exact hm ⟨.vStr "https://fal.example/scene.glb", rfl, rfl⟩

/-- C5 (amended): extraction follows the prioritized lookup exactly — it
returns whatever the per-object block yields when that block yields a value,
otherwise whatever the combined block yields, otherwise no URL; a per-object
first entry that is a direct URL string or a dict with a `url` field is
accepted; and when neither block yields a value the result is no URL.  (The
claim as frozen fails only in that a per-object dict whose `url` field is
null yields that null without consulting the combined field.) -/
theorem extract_glb_url_priority (result : Payload) :
    (extract_glb_url result = match individualYield result with
      | some u => u
      | none => (modelYield result).getD .vNone) ∧
    (∀ a rest u, dictGet result "individual_glbs" = some (.vList (a :: rest)) →
      extractFromRef a = some u → extract_glb_url result = u) ∧
    (∀ s, extractFromRef (.vStr s) = some (.vStr s)) ∧
    (∀ dd, extractFromRef (.vDict dd) = dictGet dd "url") ∧
    (individualYield result = none → modelYield result = none →
      extract_glb_url result = .vNone) := by
  refine ⟨?_, ?_, fun s => rfl, fun dd => rfl, ?_⟩
  · unfold extract_glb_url individualYield modelYield
    rcases hig : dictGet result "individual_glbs" with _ | v
    · rcases hmg : dictGet result "model_glb" with _ | w
      · rfl
      · by_cases hw : w.truthy <;> simp [hw]
    · by_cases hv : v.truthy ∧ 0 < pyLen v
      · rcases he : extractFromRef (pyIndex0 v) with _ | u
        · simp only [hv, if_true, he]
          rcases hmg : dictGet result "model_glb" with _ | w
          · rfl
          · by_cases hw : w.truthy <;> simp [hw]
        · simp [hv, he]
      · simp only [hv, if_false]
        rcases hmg : dictGet result "model_glb" with _ | w
        · rfl
        · by_cases hw : w.truthy <;> simp [hw]
  · intro a rest u hig hu
    unfold extract_glb_url
    rw [hig]
    simp [PyVal.truthy, pyLen, pyIndex0, hu]
  · intro hi hm
    unfold extract_glb_url
    unfold individualYield at hi
    unfold modelYield at hm
    rcases hig : dictGet result "individual_glbs" with _ | v
    · rw [hig] at hi
      rcases hmg : dictGet result "model_glb" with _ | w
      · rfl
      · rw [hmg] at hm
        by_cases hw : w.truthy
        · simp only [hw, if_true] at hm
          simp [hw, hm]
        · simp [hw]
    · rw [hig] at hi
      by_cases hv : v.truthy ∧ 0 < pyLen v
      · simp only [hv, if_true] at hi
        simp only [hv, if_true, hi]
        rcases hmg : dictGet result "model_glb" with _ | w
        · rfl
        · rw [hmg] at hm
          by_cases hw : w.truthy
          · simp only [hw, if_true] at hm
            simp [hw, hm]
          · simp [hw]
      · simp only [hv, if_false] at hi ⊢
        rcases hmg : dictGet result "model_glb" with _ | w
        · rfl
        · rw [hmg] at hm
          by_cases hw : w.truthy
          · simp only [hw, if_true] at hm
            simp [hw, hm]
          · simp [hw]

/-- C5 witness: the amended theorem applied to the payload that carries both
a usable per-object reference and a combined-scene reference: the per-object
URL is selected. -/
theorem extract_glb_url_priority_witness :
    dictGet payloadBoth "individual_glbs"
        = some (.vList [.vDict [("url", .vStr "https://fal.example/obj0.glb")]]) ∧
    extractFromRef (.vDict [("url", .vStr "https://fal.example/obj0.glb")])
        = some (.vStr "https://fal.example/obj0.glb") ∧
    extract_glb_url payloadBoth = .vStr "https://fal.example/obj0.glb" :=
  ⟨rfl, rfl,
    (extract_glb_url_priority payloadBoth).2.1
      (.vDict [("url", .vStr "https://fal.example/obj0.glb")]) [] _ rfl rfl⟩

/-- C6: mesh statistics are non-negative sums over the sub-geometries, an
empty scene yields `(0, 0)`, a parse failure yields `(0, 0)` instead of
raising, and a statistics failure in an otherwise successful conversion
still produces a success result (with zero counts). -/
theorem mesh_stats_never_fail
    (env : ConvEnv) (img out prompt : String) (seed : Int)
    (url msg : String) (r : Payload)
    (hKey : env.falKey ≠ "") (hCli : env.falClientOk = true)
    (hUp : env.upload img = .ok url)
    (hSub : env.subscribe 0 (mkConvArgs url (some prompt) seed (15 / 100)) = .ok r)
    (hUrl : (extract_glb_url r).truthy = true)
    (hDl : env.download (extract_glb_url r) = .ok ())
    (hLoad : env.load out = .loadError msg) :
    get_mesh_stats (.scene []) = (0, 0) ∧
    (∀ m, get_mesh_stats (.loadError m) = (0, 0)) ∧
    (∀ l, 0 ≤ (get_mesh_stats l).1 ∧ 0 ≤ (get_mesh_stats l).2) ∧
    (convert_2d_to_3d env img out prompt seed).1 = .success 0 0 out := by
  refine ⟨rfl, fun m => rfl, fun l => ⟨Nat.zero_le _, Nat.zero_le _⟩, ?_⟩
  simp only [convert_2d_to_3d, call_fal_api, afterSubmit, hKey, hCli, hUp, hSub, hUrl,
    hLoad, hDl, if_false, Bool.true_eq_false, get_mesh_stats]

/-- C6 witness: a conversion whose collaborators all succeed except that
trimesh cannot parse the downloaded file still reports success with zero
counts. -/
theorem mesh_stats_never_fail_witness :
    envStatsFail.falKey ≠ "" ∧
    (convert_2d_to_3d envStatsFail "in.png" "out.glb" "object" 42).1
      = .success 0 0 "out.glb" :=
  ⟨by decide,
   (mesh_stats_never_fail envStatsFail "in.png" "out.glb" "object" 42
      "https://fal.example/upload.png" "not a glb file" payloadModelOnly
      (by decide) rfl rfl rfl rfl rfl rfl).2.2.2⟩

/-- C7: with the remote-service credential absent or empty, the conversion
returns the configuration-error failure immediately and the network trace is
empty — no upload, no job submission, no download.  (`os.environ.get` with
default `""` maps an unset variable to the empty string, so absent and empty
coincide in the model.) -/
theorem convert_requires_credential
    (env : ConvEnv) (img out prompt : String) (seed : Int)
    (hKey : env.falKey = "") :
    convert_2d_to_3d env img out prompt seed =
      (.failure "FAL_KEY not configured. Get your key at https://fal.ai/dashboard/keys",
       []) := by
  simp [convert_2d_to_3d, hKey]

/-- C7 witness: the credential check fires on the concrete environment with
an empty key. -/
theorem convert_requires_credential_witness :
    envNoKey.falKey = "" ∧
    convert_2d_to_3d envNoKey "in.png" "out.glb" "object" 42 =
      (.failure "FAL_KEY not configured. Get your key at https://fal.ai/dashboard/keys",
       []) :=
  ⟨rfl, convert_requires_credential envNoKey "in.png" "out.glb" "object" 42 rfl⟩

/-- C8: a render request for a model id whose mesh file does not exist
fails with a 404 NotFound error whose detail names the model, the render
service is never invoked (no retry), and the event trace is empty, so no
file is written to the renders directory. -/
theorem render_missing_model_not_found
    (env : StageEnv) (model_id : String) (pitch yaw distance : Rat) (w h : Nat)
    (hmiss : env.pathExists ("storage/models/" ++ model_id ++ ".glb") = false) :
    render_3d_model env model_id pitch yaw distance w h =
      (.error ⟨404, "Model not found: " ++ model_id⟩, []) := by
  simp [render_3d_model, hmiss]

/-- C8 witness: the 404 branch on the concrete environment whose filesystem
holds no model files. -/
theorem render_missing_model_not_found_witness :
    stEnvMissing.pathExists "storage/models/ghost.glb" = false ∧
    render_3d_model stEnvMissing "ghost" 12 32 (14 / 5) 512 512 =
      (.error ⟨404, "Model not found: ghost"⟩, []) :=
  ⟨rfl, render_missing_model_not_found stEnvMissing "ghost" 12 32 (14 / 5) 512 512 rfl⟩

/-- C1: on a first job submission raising a recognized segmentation error,
the orchestrator issues exactly one further submission, with detection
threshold `0.05` and no prompt key, and — when that second submission and
the following steps succeed — returns success built from the second
response; on a first submission raising an error not recognized as a
segmentation failure, exactly one submission is issued and that error is
surfaced without retry. -/
theorem convert_segmentation_retry
    (envA envB : ConvEnv) (imgA outA imgB outB promptA promptB : String)
    (seedA seedB : Int) (urlA urlB eA eB : String) (r : Payload)
    (hKeyA : envA.falKey ≠ "") (hCliA : envA.falClientOk = true)
    (hUpA : envA.upload imgA = .ok urlA)
    (hSubA0 : envA.subscribe 0 (mkConvArgs urlA (some promptA) seedA (15 / 100)) = .error eA)
    (hRecA : isSegmentationError eA = true)
    (hSubA1 : envA.subscribe 1 (mkConvArgs urlA none seedA (5 / 100)) = .ok r)
    (hUrl : (extract_glb_url r).truthy = true)
    (hDl : envA.download (extract_glb_url r) = .ok ())
    (hKeyB : envB.falKey ≠ "") (hCliB : envB.falClientOk = true)
    (hUpB : envB.upload imgB = .ok urlB)
    (hSubB0 : envB.subscribe 0 (mkConvArgs urlB (some promptB) seedB (15 / 100)) = .error eB)
    (hRecB : isSegmentationError eB = false) :
    (submissionsOf (convert_2d_to_3d envA imgA outA promptA seedA).2
        = [mkConvArgs urlA (some promptA) seedA (15 / 100),
           mkConvArgs urlA none seedA (5 / 100)] ∧
      (mkConvArgs urlA none seedA (5 / 100)).detection_threshold = 5 / 100 ∧
      (mkConvArgs urlA none seedA (5 / 100)).prompt = none ∧
      (convert_2d_to_3d envA imgA outA promptA seedA).1
        = .success (get_mesh_stats (envA.load outA)).1
            (get_mesh_stats (envA.load outA)).2 outA) ∧
    (submissionsOf (convert_2d_to_3d envB imgB outB promptB seedB).2
        = [mkConvArgs urlB (some promptB) seedB (15 / 100)] ∧
      (convert_2d_to_3d envB imgB outB promptB seedB).1 = .failure eB) := by
  constructor
  · simp only [convert_2d_to_3d, call_fal_api, afterSubmit, hKeyA, hCliA, hUpA, hSubA0,
      hRecA, hSubA1, hUrl, hDl, if_true, if_false]
    simp [submissionsOf, mkConvArgs]
  · simp only [convert_2d_to_3d, call_fal_api, afterSubmit, hKeyB, hCliB, hUpB, hSubB0,
      hRecB, if_true, if_false]
    simp [submissionsOf]

/-- C1 witness: the retry theorem applied to the concrete environment whose
first submission raises a recognized segmentation error and the one whose
first submission raises an unrelated transport error. -/
theorem convert_segmentation_retry_witness :
    isSegmentationError "Auto-segmentation produced no masks for this image" = true ∧
    isSegmentationError "502 Bad Gateway" = false ∧
    submissionsOf (convert_2d_to_3d envSegRetry "in.png" "out.glb" "object" 42).2
      = [mkConvArgs "https://fal.example/upload.png" (some "object") 42 (15 / 100),
         mkConvArgs "https://fal.example/upload.png" none 42 (5 / 100)] ∧
    (convert_2d_to_3d envSegRetry "in.png" "out.glb" "object" 42).1
      = .success 0 0 "out.glb" ∧
    submissionsOf (convert_2d_to_3d envOtherErr "in.png" "out.glb" "object" 42).2
      = [mkConvArgs "https://fal.example/upload.png" (some "object") 42 (15 / 100)] ∧
    (convert_2d_to_3d envOtherErr "in.png" "out.glb" "object" 42).1
      = .failure "502 Bad Gateway" := by
  have h := convert_segmentation_retry envSegRetry envOtherErr
    "in.png" "out.glb" "in.png" "out.glb" "object" "object" 42 42
    "https://fal.example/upload.png" "https://fal.example/upload.png"
    "Auto-segmentation produced no masks for this image" "502 Bad Gateway"
    payloadModelOnly
    (by decide) rfl rfl rfl (by decide) rfl rfl rfl
    (by decide) rfl rfl rfl (by decide)
  exact ⟨by decide, by decide, h.1.1, h.1.2.2.2, h.2.1, h.2.2⟩

/-- C10: the conversion interface is total — the result is always a success
or a failure dict — and the exceptions of each collaborator (image upload,
missing fal-client package, mesh download) are caught and surfaced as a
failure result carrying the error message instead of propagating. -/
theorem convert_total_interface
    (envT envU envC envD : ConvEnv) (img out prompt : String) (seed : Int)
    (eU eD urlD : String) (rD : Payload)
    (hKeyU : envU.falKey ≠ "") (hCliU : envU.falClientOk = true)
    (hUpU : envU.upload img = .error eU)
    (hKeyC : envC.falKey ≠ "") (hCliC : envC.falClientOk = false)
    (hKeyD : envD.falKey ≠ "") (hCliD : envD.falClientOk = true)
    (hUpD : envD.upload img = .ok urlD)
    (hSubD : envD.subscribe 0 (mkConvArgs urlD (some prompt) seed (15 / 100)) = .ok rD)
    (hUrlD : (extract_glb_url rD).truthy = true)
    (hDlD : envD.download (extract_glb_url rD) = .error eD) :
    ((∃ e, (convert_2d_to_3d envT img out prompt seed).1 = .failure e) ∨
      (∃ v f p, (convert_2d_to_3d envT img out prompt seed).1 = .success v f p)) ∧
    convert_2d_to_3d envU img out prompt seed = (.failure eU, [NetEvent.upload img]) ∧
    convert_2d_to_3d envC img out prompt seed
      = (.failure "fal-client package not installed", []) ∧
    (convert_2d_to_3d envD img out prompt seed).1 = .failure eD := by
  refine ⟨?_, ?_, ?_, ?_⟩
  · have hcases : ∀ r : ConvResult, (∃ e, r = ConvResult.failure e) ∨
        (∃ v f p, r = ConvResult.success v f p) := by
      intro r
      cases r with
      | success v f p => exact Or.inr ⟨v, f, p, rfl⟩
      | failure e => exact Or.inl ⟨e, rfl⟩
    exact hcases _
  · simp only [convert_2d_to_3d, hKeyU, hCliU, hUpU, if_true, if_false]
    simp
  · simp only [convert_2d_to_3d, hKeyC, hCliC, if_true, if_false]
  · simp only [convert_2d_to_3d, call_fal_api, afterSubmit, hKeyD, hCliD, hUpD, hSubD,
      hUrlD, hDlD, if_true, if_false]
    simp

/-- C10 witness: the interface-totality theorem applied to the concrete
environments in which the upload raises, the client package is missing, and
the download raises. -/
theorem convert_total_interface_witness :
    convert_2d_to_3d envUploadErr "in.png" "out.glb" "object" 42
      = (.failure "connection reset by peer", [NetEvent.upload "in.png"]) ∧
    convert_2d_to_3d envNoClient "in.png" "out.glb" "object" 42
      = (.failure "fal-client package not installed", []) ∧
    (convert_2d_to_3d envDownloadErr "in.png" "out.glb" "object" 42).1
      = .failure "HTTP 500 from storage" := by
  have h := convert_total_interface envSegRetry envUploadErr envNoClient envDownloadErr
    "in.png" "out.glb" "object" 42
    "connection reset by peer" "HTTP 500 from storage"
    "https://fal.example/upload.png" payloadModelOnly
    (by decide) rfl rfl (by decide) rfl (by decide) rfl rfl rfl rfl rfl
  exact ⟨h.2.1, h.2.2.1, h.2.2.2⟩

/-- C2: the render chain never propagates an exception — whenever the
placeholder render and its save succeed the call reports success with the
caller-specified output path (whatever the primary backend did); when the
primary path fails the placeholder is tried exactly once with the same
resolution, pitch and yaw, the call succeeds if that attempt succeeds, and
a failure result (carrying the original error) is returned only when the
placeholder attempt itself also raises. -/
theorem render_angle_placeholder_fallback {Img : Type}
    (env1 env2 env3 : RenderEnv Img) (renderer model_path output_path : String)
    (pitch yaw distance : Rat) (resolution : Nat × Nat)
    (im1 im3 : Img) (e2 e3 em2 : String)
    (h1m : env1.mockBackend resolution pitch yaw = .ok im1)
    (h1s : env1.saveImage im1 output_path = .ok ())
    (h2d : env2.mkdirParent = .ok ())
    (h2p : env2.pyrenderBackend model_path pitch yaw distance resolution = .error e2)
    (h2m : env2.mockBackend resolution pitch yaw = .error em2)
    (h3d : env3.mkdirParent = .ok ())
    (h3p : env3.pyrenderBackend model_path pitch yaw distance resolution = .error e3)
    (h3m : env3.mockBackend resolution pitch yaw = .ok im3)
    (h3s : env3.saveImage im3 output_path = .ok ()) :
    (render_angle env1 renderer model_path output_path pitch yaw distance resolution).1
        = .success output_path ∧
    render_angle env2 "pyrender" model_path output_path pitch yaw distance resolution
        = (.failure e2, [⟨resolution, pitch, yaw⟩]) ∧
    render_angle env3 "pyrender" model_path output_path pitch yaw distance resolution
        = (.success output_path, [⟨resolution, pitch, yaw⟩]) := by
  refine ⟨?_, ?_, ?_⟩
  · unfold render_angle
    cases hd : env1.mkdirParent with
    | error e => simp [h1m, h1s]
    | ok u =>
      rcases hpr : renderPrimary env1 renderer model_path pitch yaw distance resolution
        with ⟨ri, log⟩
      cases ri with
      | error e => simp [h1m, h1s]
      | ok im =>
        cases hs : env1.saveImage im output_path with
        | ok u2 => simp [hs]
        | error e => simp [hs, h1m, h1s]
  · unfold render_angle renderPrimary
    simp [h2d, h2p, h2m]
  · unfold render_angle renderPrimary
    simp [h3d, h3p, h3m, h3s]

/-- C2 witness: the fallback theorem applied to the concrete environments:
with a failing primary backend and a working placeholder the call succeeds;
with both failing it reports the original backend error. -/
theorem render_angle_placeholder_fallback_witness :
    (render_angle renvFallbackOk "pyrender" "m.glb" "out.png" 12 32 (14 / 5) (512, 512)).1
        = .success "out.png" ∧
    render_angle renvAllFail "pyrender" "m.glb" "out.png" 12 32 (14 / 5) (512, 512)
        = (.failure "OpenGL context unavailable", [⟨(512, 512), 12, 32⟩]) ∧
    render_angle renvFallbackOk "pyrender" "m.glb" "out.png" 12 32 (14 / 5) (512, 512)
        = (.success "out.png", [⟨(512, 512), 12, 32⟩]) := by
  have h := render_angle_placeholder_fallback renvFallbackOk renvAllFail renvFallbackOk
    "pyrender" "m.glb" "out.png" 12 32 (14 / 5) (512, 512) 2 2
    "OpenGL context unavailable" "OpenGL context unavailable" "ImageDraw failure"
    rfl rfl rfl rfl rfl rfl rfl rfl rfl
  exact h

/-- The service state is never mutated by requests, and every request is
dispatched on the renderer string stored at construction. -/
theorem renderMany_spec {Img : Type} (s : RenderServiceM)
    (calls : List (RenderCallArgs Img)) :
    (renderMany s calls).1 = s ∧
    (renderMany s calls).2 = calls.map (fun c => render_angle c.env s.renderer
      c.model_path c.output_path c.pitch c.yaw c.distance c.resolution) := by
  induction calls with
  | nil => exact ⟨rfl, rfl⟩
  | cons c cs ih =>
    simp only [renderMany, renderStep, List.map_cons]
    exact ⟨ih.1, by rw [ih.2]⟩

/-- C9: the renderer is selected once at construction by probing in the
fixed order pyrender, matplotlib, mock — the first available wins even when
later ones are also available — and across any sequence of render calls the
stored value never changes and every call dispatches on it (not on the
package availability at call time, which the calls carry but the dispatch
ignores). -/
theorem renderer_capability_fixed {Img : Type} (pa ma b : Bool)
    (calls : List (RenderCallArgs Img)) :
    detect_renderer true b = "pyrender" ∧
    detect_renderer false true = "matplotlib" ∧
    detect_renderer false false = "mock" ∧
    (renderMany (RenderServiceM.init pa ma) calls).1 = RenderServiceM.init pa ma ∧
    (renderMany (RenderServiceM.init pa ma) calls).2
      = calls.map (fun c => render_angle c.env (detect_renderer pa ma) c.model_path
          c.output_path c.pitch c.yaw c.distance c.resolution) :=
  ⟨rfl, rfl, rfl, (renderMany_spec _ calls).1, (renderMany_spec _ calls).2⟩

theorem Vec3.normSq_nonneg (v : Vec3) : 0 ≤ v.normSq := by
  unfold Vec3.normSq
  positivity

theorem Vec3.norm_nonneg (v : Vec3) : 0 ≤ v.norm :=
  Real.sqrt_nonneg _

theorem Vec3.sq_norm (v : Vec3) : v.norm ^ 2 = v.normSq :=
  Real.sq_sqrt v.normSq_nonneg

theorem Vec3.dot_comm (a b : Vec3) : a.dot b = b.dot a := by
  unfold Vec3.dot
  ring

theorem Vec3.dot_cross_left (a b : Vec3) : (a.cross b).dot a = 0 := by
  unfold Vec3.cross Vec3.dot
  ring

theorem Vec3.dot_cross_right (a b : Vec3) : (a.cross b).dot b = 0 := by
  unfold Vec3.cross Vec3.dot
  ring

theorem Vec3.normSq_cross (a b : Vec3) :
    (a.cross b).normSq = a.normSq * b.normSq - (a.dot b) ^ 2 := by
  unfold Vec3.cross Vec3.normSq Vec3.dot
  ring

theorem Vec3.normSq_divS (v : Vec3) (s : ℝ) :
    (v.divS s).normSq = v.normSq / s ^ 2 := by
  unfold Vec3.divS Vec3.normSq
  ring

theorem Vec3.norm_divS (v : Vec3) (s : ℝ) (hs : 0 < s) :
    (v.divS s).norm = v.norm / s := by
  unfold Vec3.norm
  rw [Vec3.normSq_divS]
  have h1 : v.normSq / s ^ 2 = v.normSq * (1 / s) ^ 2 := by ring
  rw [h1, Real.sqrt_mul v.normSq_nonneg, Real.sqrt_sq (by positivity : (0:ℝ) ≤ 1 / s)]
  ring

theorem Vec3.dot_divS_left (v : Vec3) (s : ℝ) (w : Vec3) :
    (v.divS s).dot w = v.dot w / s := by
  unfold Vec3.divS Vec3.dot
  ring

theorem Vec3.dot_neg_right (a b : Vec3) : a.dot b.neg = -(a.dot b) := by
  unfold Vec3.neg Vec3.dot
  ring

theorem Vec3.normSq_neg (v : Vec3) : v.neg.normSq = v.normSq := by
  unfold Vec3.neg Vec3.normSq
  ring

theorem Vec3.norm_neg (v : Vec3) : v.neg.norm = v.norm := by
  unfold Vec3.norm
  rw [Vec3.normSq_neg]

theorem Vec3.normSq_sub_zero (v : Vec3) : (Vec3.sub ⟨0, 0, 0⟩ v).normSq = v.normSq := by
  unfold Vec3.sub Vec3.normSq
  ring

theorem cameraEye_normSq (p y d : ℝ) : (cameraEye p y d).normSq = d ^ 2 := by
  simp only [cameraEye, Vec3.normSq]
  have hy := Real.sin_sq_add_cos_sq (radians y)
  have hp := Real.sin_sq_add_cos_sq (radians p)
  linear_combination (d ^ 2 * Real.cos (radians p) ^ 2) * hy + d ^ 2 * hp

theorem cameraEyeSub_norm (p y d : ℝ) (hd : 0 < d) :
    (Vec3.sub ⟨0, 0, 0⟩ (cameraEye p y d)).norm = d := by
  unfold Vec3.norm
  rw [Vec3.normSq_sub_zero, cameraEye_normSq, Real.sqrt_sq hd.le]

theorem cameraForward_normSq (p y d : ℝ) (hd : 0 < d) :
    (cameraForward (cameraEye p y d)).normSq = 1 := by
  unfold cameraForward
  rw [Vec3.normSq_divS, Vec3.sq_norm, Vec3.normSq_sub_zero, cameraEye_normSq]
  exact div_self (pow_ne_zero 2 (ne_of_gt hd))

theorem cameraForward_y (p y d : ℝ) (hd : 0 < d) :
    (cameraForward (cameraEye p y d)).y = -Real.sin (radians p) := by
  unfold cameraForward
  have hnorm := cameraEyeSub_norm p y d hd
  show (Vec3.sub ⟨0, 0, 0⟩ (cameraEye p y d)).y / (Vec3.sub ⟨0, 0, 0⟩ (cameraEye p y d)).norm
      = -Real.sin (radians p)
  rw [hnorm]
  show (0 - d * Real.sin (radians p)) / d = -Real.sin (radians p)
  field_simp
  ring

theorem cameraCross_eq (f : Vec3) : f.cross ⟨0, 1, 0⟩ = ⟨-f.z, 0, f.x⟩ := by
  unfold Vec3.cross
  simp

theorem cameraCross_normSq (p y d : ℝ) (hd : 0 < d) :
    ((cameraForward (cameraEye p y d)).cross ⟨0, 1, 0⟩).normSq
      = Real.cos (radians p) ^ 2 := by
  rw [cameraCross_eq]
  have h1 : (⟨-(cameraForward (cameraEye p y d)).z, 0,
      (cameraForward (cameraEye p y d)).x⟩ : Vec3).normSq
      = (cameraForward (cameraEye p y d)).normSq
        - (cameraForward (cameraEye p y d)).y ^ 2 := by
    unfold Vec3.normSq
    ring
  rw [h1, cameraForward_normSq p y d hd, cameraForward_y p y d hd]
  have hp := Real.sin_sq_add_cos_sq (radians p)
  nlinarith [hp]

theorem camEps_pos : 0 < camEps := by
  unfold camEps
  norm_num

theorem cameraCross_norm (p y d : ℝ) (hd : 0 < d) (hc : 0 < Real.cos (radians p)) :
    ((cameraForward (cameraEye p y d)).cross ⟨0, 1, 0⟩).norm = Real.cos (radians p) := by
  unfold Vec3.norm
  rw [cameraCross_normSq p y d hd, Real.sqrt_sq hc.le]

theorem cameraRight_norm (p y d : ℝ) (hd : 0 < d) (hc : 0 < Real.cos (radians p)) :
    (cameraRight (cameraForward (cameraEye p y d))).norm
      = Real.cos (radians p) / (Real.cos (radians p) + camEps) := by
  unfold cameraRight
  have hpos : 0 < ((cameraForward (cameraEye p y d)).cross ⟨0, 1, 0⟩).norm + camEps :=
    add_pos_of_nonneg_of_pos (Vec3.norm_nonneg _) camEps_pos
  rw [Vec3.norm_divS _ _ hpos, cameraCross_norm p y d hd hc]

theorem cameraRight_dot_forward (p y d : ℝ) :
    (cameraRight (cameraForward (cameraEye p y d))).dot (cameraForward (cameraEye p y d))
      = 0 := by
  unfold cameraRight
  rw [Vec3.dot_divS_left, Vec3.dot_cross_left, zero_div]

theorem cameraUp_normSq (p y d : ℝ) (hd : 0 < d) :
    (cameraUp (cameraRight (cameraForward (cameraEye p y d)))
        (cameraForward (cameraEye p y d))).normSq
      = (cameraRight (cameraForward (cameraEye p y d))).normSq := by
  unfold cameraUp
  rw [Vec3.normSq_cross, cameraForward_normSq p y d hd, cameraRight_dot_forward]
  ring

theorem cameraUp_norm (p y d : ℝ) (hd : 0 < d) :
    (cameraUp (cameraRight (cameraForward (cameraEye p y d)))
        (cameraForward (cameraEye p y d))).norm
      = (cameraRight (cameraForward (cameraEye p y d))).norm := by
  unfold Vec3.norm
  rw [cameraUp_normSq p y d hd]

theorem cameraForward_norm (p y d : ℝ) (hd : 0 < d) :
    (cameraForward (cameraEye p y d)).norm = 1 := by
  unfold Vec3.norm
  rw [cameraForward_normSq p y d hd, Real.sqrt_one]

theorem cos_radians_pos (p : ℝ) (h1 : -90 < p) (h2 : p < 90) :
    0 < Real.cos (radians p) := by
  apply Real.cos_pos_of_mem_Ioo
  have hπ := Real.pi_pos
  constructor
  · show -(Real.pi / 2) < radians p
    unfold radians
    nlinarith [mul_pos (by linarith : (0:ℝ) < p + 90) hπ]
  · show radians p < Real.pi / 2
    unfold radians
    nlinarith [mul_pos (by linarith : (0:ℝ) < 90 - p) hπ]

theorem ratio_close_to_one (c ε : ℝ) (hc : 0 < c) (hε : 0 < ε) :
    |c / (c + ε) - 1| ≤ ε / c := by
  have hce : 0 < c + ε := by linarith
  have h1 : c / (c + ε) ≤ 1 := by
    rw [div_le_one hce]
    linarith
  have h2 : |c / (c + ε) - 1| = 1 - c / (c + ε) := by
    rw [abs_of_nonpos (by linarith)]
    ring
  have h3 : 1 - c / (c + ε) = ε / (c + ε) := by
    field_simp
  rw [h2, h3, div_le_div_iff₀ hce hc]
  nlinarith [sq_nonneg ε]

/-- C4 (amended): for every pitch strictly between -90 and 90 degrees, every
yaw, and every positive distance, the rotation block of the computed camera
pose has exactly mutually perpendicular columns and an exactly unit third
column; its first two columns have norm `cos(pitch) / (cos(pitch) + 1e-8)`,
which is within `1e-8 / cos(pitch)` of unit length — near-orthonormal away
from the poles but degrading without bound as the pitch approaches the
poles, which is what refutes the uniform-tolerance claim. -/
theorem camera_pose_rotation_block (p y d : ℝ)
    (h1 : -90 < p) (h2 : p < 90) (hd : 0 < d) : rotationBlockFacts p y d := by
  have hc := cos_radians_pos p h1 h2
  have hcol0 : poseCol (camera_pose p y d) 0
      = cameraRight (cameraForward (cameraEye p y d)) := rfl
  have hcol1 : poseCol (camera_pose p y d) 1
      = cameraUp (cameraRight (cameraForward (cameraEye p y d)))
          (cameraForward (cameraEye p y d)) := rfl
  have hcol2 : poseCol (camera_pose p y d) 2
      = (cameraForward (cameraEye p y d)).neg := rfl
  refine ⟨?_, ?_, ?_, ?_, ?_, ?_, ?_, ?_⟩
  · rw [hcol0, hcol1, Vec3.dot_comm]
    exact Vec3.dot_cross_left _ _
  · rw [hcol0, hcol2, Vec3.dot_neg_right, cameraRight_dot_forward]
    ring
  · rw [hcol1, hcol2, Vec3.dot_neg_right]
    rw [show (cameraUp (cameraRight (cameraForward (cameraEye p y d)))
        (cameraForward (cameraEye p y d))).dot (cameraForward (cameraEye p y d)) = 0
      from Vec3.dot_cross_right _ _]
    ring
  · rw [hcol2, Vec3.norm_neg]
    exact cameraForward_norm p y d hd
  · rw [hcol0]
    exact cameraRight_norm p y d hd hc
  · rw [hcol1, cameraUp_norm p y d hd]
    exact cameraRight_norm p y d hd hc
  · rw [hcol0, cameraRight_norm p y d hd hc]
    exact ratio_close_to_one _ _ hc camEps_pos
  · rw [hcol1, cameraUp_norm p y d hd, cameraRight_norm p y d hd hc]
    exact ratio_close_to_one _ _ hc camEps_pos

/-- C4 witness: the amended theorem instantiated at pitch 0, yaw 0,
distance 1. -/
theorem camera_pose_rotation_block_witness :
    ((-90 : ℝ) < 0) ∧ ((0 : ℝ) < 90) ∧ ((0 : ℝ) < 1) ∧ rotationBlockFacts 0 0 1 :=
  ⟨by norm_num, by norm_num, by norm_num,
   camera_pose_rotation_block 0 0 1 (by norm_num) (by norm_num) (by norm_num)⟩

/-- C4 counterexample: orthonormality within tolerance `1/1000` fails inside
the claimed parameter range — at pitch `90 - 1e-9` degrees, yaw `0`,
distance `1`, the first rotation column (`right`) has norm at most `1/100`,
because the cross product underlying it has norm `cos(pitch) < 1e-10` while
the epsilon guard adds `1e-8` to the normalizing denominator. -/
theorem camera_pose_orthonormal_counterexample :
    ¬ (∀ p y d : ℝ, -90 < p → p < 90 → 0 ≤ y → y < 360 → 0 < d →
        poseOrthonormalWithin (1 / 1000) p y d) := by
  intro hclaim
  have hπ := Real.pi_pos
  have hxpos : 0 < Real.pi / 180000000000 := by positivity
  have hxltπ : Real.pi / 180000000000 < Real.pi :=
    div_lt_self hπ (by norm_num)
  have hsin_pos : 0 < Real.sin (Real.pi / 180000000000) :=
    Real.sin_pos_of_pos_of_lt_pi hxpos hxltπ
  have hsin_lt : Real.sin (Real.pi / 180000000000) < Real.pi / 180000000000 :=
    Real.sin_lt hxpos
  have hxle : Real.pi / 180000000000 ≤ 1 / 10000000000 := by
    have h4 : Real.pi / 180000000000 ≤ 4 / 180000000000 :=
      (div_le_div_iff_of_pos_right (by norm_num)).mpr Real.pi_le_four
    linarith [h4]
  have hrad : radians (90 - 1 / 1000000000) = Real.pi / 2 - Real.pi / 180000000000 := by
    unfold radians
    ring
  have hcos : Real.cos (radians (90 - 1 / 1000000000))
      = Real.sin (Real.pi / 180000000000) := by
    rw [hrad, Real.cos_pi_div_two_sub]
  have hc : 0 < Real.cos (radians (90 - 1 / 1000000000)) := by
    rw [hcos]
    exact hsin_pos
  have hcle : Real.cos (radians (90 - 1 / 1000000000)) ≤ 1 / 10000000000 := by
    rw [hcos]
    linarith
  have hεval : camEps = 1 / 100000000 := rfl
  have hnorm : (poseCol (camera_pose (90 - 1 / 1000000000) 0 1) 0).norm
      = Real.cos (radians (90 - 1 / 1000000000))
        / (Real.cos (radians (90 - 1 / 1000000000)) + camEps) := by
    rw [show poseCol (camera_pose (90 - 1 / 1000000000) 0 1) 0
        = cameraRight (cameraForward (cameraEye (90 - 1 / 1000000000) 0 1)) from rfl]
    exact cameraRight_norm _ 0 1 one_pos hc
  have hb1 : Real.cos (radians (90 - 1 / 1000000000))
      / (Real.cos (radians (90 - 1 / 1000000000)) + camEps)
      ≤ Real.cos (radians (90 - 1 / 1000000000)) / camEps := by
    rw [div_le_div_iff₀ (by linarith [camEps_pos]) camEps_pos]
    nlinarith [mul_nonneg hc.le hc.le]
  have hb2 : Real.cos (radians (90 - 1 / 1000000000)) / camEps ≤ 1 / 100 := by
    rw [div_le_div_iff₀ camEps_pos (by norm_num : (0:ℝ) < 100), hεval]
    linarith
  have hclaimed := (hclaim (90 - 1 / 1000000000) 0 1 (by norm_num) (by norm_num)
    le_rfl (by norm_num) one_pos).1
  rw [hnorm] at hclaimed
  have habs : 1 - Real.cos (radians (90 - 1 / 1000000000))
      / (Real.cos (radians (90 - 1 / 1000000000)) + camEps)
      ≤ |Real.cos (radians (90 - 1 / 1000000000))
          / (Real.cos (radians (90 - 1 / 1000000000)) + camEps) - 1| := by
    rw [abs_sub_comm]
    exact le_abs_self _
  linarith

/-- C3: for all pitch, yaw and distance, the translation column of the pose
is the spherical eye point computed with degree-to-radian conversion, the
bottom row is `(0,0,0,1)`, the three rotation columns are the `right`,
`cam_up` and negated `forward` vectors of the look-at basis with target the
origin, world up `(0,1,0)` and the `1e-8` guard in the normalization of
`right`; at pitch 0 and yaw 0 the eye lies on the +Z axis at the given
distance. -/
theorem camera_pose_structure (p y d : ℝ) :
    camera_pose p y d 0 3 = d * Real.cos (radians p) * Real.sin (radians y) ∧
    camera_pose p y d 1 3 = d * Real.sin (radians p) ∧
    camera_pose p y d 2 3 = d * Real.cos (radians p) * Real.cos (radians y) ∧
    camera_pose p y d 3 0 = 0 ∧ camera_pose p y d 3 1 = 0 ∧
    camera_pose p y d 3 2 = 0 ∧ camera_pose p y d 3 3 = 1 ∧
    poseCol (camera_pose p y d) 0 = cameraRight (cameraForward (cameraEye p y d)) ∧
    poseCol (camera_pose p y d) 1
      = cameraUp (cameraRight (cameraForward (cameraEye p y d)))
          (cameraForward (cameraEye p y d)) ∧
    poseCol (camera_pose p y d) 2 = (cameraForward (cameraEye p y d)).neg ∧
    camera_pose 0 0 d 0 3 = 0 ∧ camera_pose 0 0 d 1 3 = 0 ∧ camera_pose 0 0 d 2 3 = d := by
  refine ⟨rfl, rfl, rfl, rfl, rfl, rfl, rfl, rfl, rfl, rfl, ?_, ?_, ?_⟩
  · simp [camera_pose, cameraEye, radians]
  · simp [camera_pose, cameraEye, radians]
  · simp [camera_pose, cameraEye, radians]
